import Mathlib

/-
Verification development for the Statz native Windows GPU monitoring layer
(src/statz/internal/native/windows/gpu/{nvidia,amd,intel}/gpu_usage.c).

Each backend is shallowly embedded as pure Lean functions over explicit
session-state records (static globals of the C file) and per-call oracle
environments (the values the vendor library, the performance-counter
subsystem, the registry and the OS report to each call).  Machine
integers are modelled as Nat with explicit % 2^64 where unsigned
wrap-around matters.  Calls through a possibly-NULL function pointer are
modelled in the Except monad: invoking an unresolved pointer yields
.error (), every defined execution yields .ok.
-/

namespace Statz

/-- Numeric constant 2^64, the modulus of C unsigned long long arithmetic. -/
def u64Mod : Nat := 18446744073709551616

/-- Wrapping 64-bit subtraction: the value of the C expression a - b on
unsigned long long operands a, b < 2^64. -/
def uSub64 (a b : Nat) : Nat := (a % u64Mod + (u64Mod - b % u64Mod)) % u64Mod

/-- Numeric constant 2^32, the modulus of C unsigned int arithmetic. -/
def u32Mod : Nat := 4294967296

/-- Value of the C (int) cast applied to an unsigned 64-bit quantity:
truncation to the low 32 bits reinterpreted as a twos-complement
signed int (the behaviour of the Windows x64 toolchains this file
targets). -/
def intCast32 (x : Nat) : Int :=
  if x % u32Mod < 2147483648 then ((x % u32Mod : Nat) : Int)
  else ((x % u32Mod : Nat) : Int) - (u32Mod : Int)

/-! ## NVIDIA backend (nvidia/gpu_usage.c)

Embedding of load_nvml, gpu_init, gpu_shutdown, gpu_get_count,
gpu_get_info_json and gpu_get_usage.  -/

/-- Value written by nvmlDeviceGetUtilizationRates (nvmlUtilization_t):
two unsigned int percentages as reported by NVML. -/
structure NvUtilization where
  gpu : Nat
  memory : Nat
deriving Repr, DecidableEq

/-- Value written by nvmlDeviceGetMemoryInfo (nvmlMemory_t): three
unsigned long long byte counts as reported by NVML. -/
structure NvMemory where
  total : Nat
  free : Nat
  used : Nat
deriving Repr, DecidableEq

/-- Which exports GetProcAddress finds in one candidate nvml.dll.  The
code probes both the _v2 and legacy names for init, count and handle. -/
structure NvSymbols where
  initV2 : Bool
  initV1 : Bool
  shutdownSym : Bool
  countV2 : Bool
  countV1 : Bool
  handleV2 : Bool
  handleV1 : Bool
  nameSym : Bool
  utilSym : Bool
  memSym : Bool
  tempSym : Bool
  powerSym : Bool
deriving Repr, DecidableEq

/-- One candidate path in the possible_paths list of load_nvml:
whether LoadLibraryA succeeds on it and, if so, which symbols the
loaded module exports. -/
structure NvCandidate where
  loads : Bool
  sym : NvSymbols
deriving Repr, DecidableEq

/-- The nine static NVML function-pointer globals of the file; true
means the pointer is non-NULL (resolved). -/
structure NvPtrs where
  pInit : Bool
  pShutdown : Bool
  pCount : Bool
  pHandle : Bool
  pName : Bool
  pUtil : Bool
  pMem : Bool
  pTemp : Bool
  pPower : Bool
deriving Repr, DecidableEq

/-- All-NULL pointer table: the state of the static globals before any
load_nvml call. -/
def nvNullPtrs : NvPtrs :=
  ⟨false, false, false, false, false, false, false, false, false⟩

/-- Pointer assignments performed by load_nvml on a loaded module
(lines 99-113): the v2 name is tried first, then the legacy name. -/
def resolveNv (s : NvSymbols) : NvPtrs where
  pInit := s.initV2 || s.initV1
  pShutdown := s.shutdownSym
  pCount := s.countV2 || s.countV1
  pHandle := s.handleV2 || s.handleV1
  pName := s.nameSym
  pUtil := s.utilSym
  pMem := s.memSym
  pTemp := s.tempSym
  pPower := s.powerSym

/-- The required-symbol check of load_nvml (lines 115-117).  Note that
pTemp and pPower are NOT part of the required set. -/
def nvRequiredOk (p : NvPtrs) : Bool :=
  p.pInit && p.pShutdown && p.pCount && p.pHandle && p.pName && p.pUtil && p.pMem

/-- Return value of load_nvml: 0 with a validated table, -1 when no
candidate loads, -2 when the loaded candidate misses a required symbol. -/
inductive NvLoadResult where
  | ok (ptrs : NvPtrs)
  | noLibrary
  | symbolMissing
deriving Repr, DecidableEq

/-- Embedding of load_nvml (lines 80-124).  The path loop stops at the
first candidate that LoadLibraryA accepts; symbol resolution is then
performed once, on that module only.  The second component is the
value of the nvml_lib global afterwards (true = still loaded): on a
missing required symbol the module is freed and the global nulled
(lines 118-119). -/
def load_nvml (cands : List NvCandidate) : NvLoadResult × Bool :=
  match cands.find? (fun c => c.loads) with
  | none => (.noLibrary, false)
  | some c =>
      let p := resolveNv c.sym
      if nvRequiredOk p then (.ok p, true) else (.symbolMissing, false)

/-- Session state of the NVIDIA file: the nvml_lib module handle and
the nine function-pointer globals. -/
structure NvState where
  lib : Bool
  ptrs : NvPtrs
deriving Repr, DecidableEq

/-- State of the static globals at process start: everything NULL. -/
def nvUninit : NvState := ⟨false, nvNullPtrs⟩

/-- Embedding of gpu_init (lines 135-147) threading the globals.
nvInitOk tells whether the nvmlInit() call would return NVML_SUCCESS.
On a failed load the pointer globals keep whatever load_nvml assigned
(stale on symbolMissing, untouched when no candidate loads); the
module handle is freed in every failure branch. -/
def nv_gpu_init (s : NvState) (cands : List NvCandidate) (nvInitOk : Bool) :
    NvState × Int :=
  match cands.find? (fun c => c.loads) with
  | none => (⟨false, s.ptrs⟩, -1)
  | some c =>
      let p := resolveNv c.sym
      if nvRequiredOk p then
        if nvInitOk then (⟨true, p⟩, 0)
        else (⟨false, p⟩, -2)
      else (⟨false, p⟩, -1)

/-- Observable release actions of gpu_shutdown: the nvmlShutdown()
call and the FreeLibrary(nvml_lib) call. -/
inductive NvEffect where
  | callShutdownSym
  | freeLib
deriving Repr, DecidableEq

/-- Embedding of gpu_shutdown (lines 150-155) with unload_nvml
(lines 127-132) inlined: nvmlShutdown is called only when both the
module handle and the pointer are live; FreeLibrary only when the
handle is live, and the handle global is then nulled. -/
def nv_gpu_shutdown (s : NvState) : NvState × List NvEffect :=
  let callEff := if s.lib && s.ptrs.pShutdown then [NvEffect.callShutdownSym] else []
  if s.lib then (⟨false, s.ptrs⟩, callEff ++ [NvEffect.freeLib])
  else (s, callEff)

/-- Per-call oracle for the NVIDIA query functions: what each NVML call
would report if invoked.  none models a non-NVML_SUCCESS return. -/
structure NvEnv where
  countRes : Option Nat
  handleOk : Nat → Bool
  nameRes : Nat → Option String
  utilRes : Nat → Option NvUtilization
  memRes : Nat → Option NvMemory
  tempRes : Nat → Option Nat
  powerRes : Nat → Option Nat

/-- Embedding of gpu_get_count (lines 158-167).  The call through
nvmlDeviceGetCount is unguarded: with a NULL pointer the execution is
undefined (.error). -/
def nv_gpu_get_count (s : NvState) (env : NvEnv) : Except Unit Int :=
  if s.ptrs.pCount then
    match env.countRes with
    | none => .ok (-1)
    | some n => .ok (n : Int)
  else .error ()

/-- One unified GPU record as serialized by the NVIDIA
gpu_get_info_json (lines 229-235); gpuUtil and memUtil are the raw
unsigned percentages printed with %u, powerMw the raw milliwatt value
(the code prints power / 1000.0). -/
structure NvRecord where
  index : Nat
  name : String
  gpuUtil : Nat
  memUtil : Nat
  memTotal : Nat
  memUsed : Nat
  memFree : Nat
  temperature : Nat
  powerMw : Nat
deriving Repr, DecidableEq

/-- Fields of the record the loop body of gpu_get_info_json
(lines 195-235) builds for device i once the handle fetch succeeded,
as a function of the oracle: failed name lookup defaults the name,
failed utilization or memory queries default those fields to 0, and
temperature and power stay 0 when their calls fail. -/
def nvRecordOf (env : NvEnv) (i : Nat) : NvRecord where
  index := i
  name := (env.nameRes i).getD "Unknown GPU"
  gpuUtil := ((env.utilRes i).map NvUtilization.gpu).getD 0
  memUtil := ((env.utilRes i).map NvUtilization.memory).getD 0
  memTotal := ((env.memRes i).map NvMemory.total).getD 0
  memUsed := ((env.memRes i).map NvMemory.used).getD 0
  memFree := ((env.memRes i).map NvMemory.free).getD 0
  temperature := (env.tempRes i).getD 0
  powerMw := (env.powerRes i).getD 0

/-- One iteration of the device loop of gpu_get_info_json
(lines 188-238): every NVML call goes through its stored pointer with
no NULL guard (including nvmlDeviceGetTemperature and
nvmlDeviceGetPowerUsage, which the probe does not require); a failed
handle fetch skips the record via continue (result none). -/
def nvBuildRecord (s : NvState) (env : NvEnv) (i : Nat) :
    Except Unit (Option NvRecord) :=
  if !s.ptrs.pHandle then .error () else
  if !env.handleOk i then .ok none else
  if !s.ptrs.pName then .error () else
  if !s.ptrs.pUtil then .error () else
  if !s.ptrs.pMem then .error () else
  if !s.ptrs.pTemp then .error () else
  if !s.ptrs.pPower then .error () else
  .ok (some (nvRecordOf env i))

/-- Device loop of gpu_get_info_json (lines 188-238), iterating the
loop body over the remaining indices while accumulating the appended
records; an undefined pointer call anywhere aborts the whole
execution. -/
def nvLoop (s : NvState) (env : NvEnv) :
    List Nat → List NvRecord → Except Unit (List NvRecord)
  | [], acc => .ok acc
  | i :: rest, acc =>
      match nvBuildRecord s env i with
      | .error e => .error e
      | .ok none => nvLoop s env rest acc
      | .ok (some r) => nvLoop s env rest (acc ++ [r])

/-- Embedding of gpu_get_info_json (lines 171-243): NULL when the
device-count query fails, otherwise the list of records the device
loop appends (devices whose handle fetch fails are skipped).  Buffer
allocation is assumed to succeed. -/
def nv_gpu_get_info_json (s : NvState) (env : NvEnv) :
    Except Unit (Option (List NvRecord)) :=
  if !s.ptrs.pCount then .error () else
  match env.countRes with
  | none => .ok none
  | some n => (nvLoop s env (List.range n) []).map some

/-- Embedding of gpu_get_usage (lines 246-260): utilization of device
0, or -1 when the handle fetch or the rates query fails; both calls
are unguarded pointer calls. -/
def nv_gpu_get_usage (s : NvState) (env : NvEnv) : Except Unit Int :=
  if !s.ptrs.pHandle then .error () else
  if !env.handleOk 0 then .ok (-1) else
  if !s.ptrs.pUtil then .error () else
  match env.utilRes 0 with
  | none => .ok (-1)
  | some u => .ok (u.gpu : Int)

/-! ## AMD backend (amd/gpu_usage.c)

Embedding of gpu_init, gpu_shutdown, gpu_get_count, the internal
utilization/memory helpers and gpu_get_info_json, with the
performance-counter fallback. -/

/-- Per-adapter data agsInitialize caches in gpu_info.devices
(AGSDeviceInfo): the fields gpu_get_info_json reads.  localMemory is
the signed long long localMemoryInBytes, assumed non-negative. -/
structure AgsDeviceInfo where
  adapterString : String
  localMemory : Nat
deriving Repr, DecidableEq

/-- Value written by a successful agsGetGPUMemoryUsage call
(AGSGPUUsage), restricted to the fields the code consumes as
integers: gpuUsagePercent truncated by the C (int) cast, and
memoryUsedInBytes (assumed non-negative, stored into an unsigned
long long).  The float temperature and power fields are not modelled. -/
structure AgsGpuUsage where
  gpuUsagePercentInt : Int
  memoryUsedBytes : Nat
deriving Repr, DecidableEq

/-- Static globals of the AMD file: the AGS module handle, the four
AGS function pointers (true = resolved), the AGS context and init
flag, the cached gpu_info, and the performance-counter query state. -/
structure AmdState where
  agsLib : Bool
  agsInitPtr : Bool
  agsDeInitPtr : Bool
  agsGetUsagePtr : Bool
  agsVersionPtr : Bool
  agsContext : Bool
  agsInitialized : Bool
  numDevices : Nat
  devices : List AgsDeviceInfo
  queryHandle : Bool
  utilCounter : Bool
  memCounter : Bool
  perfInitialized : Bool
deriving Repr, DecidableEq

/-- State of the AMD static globals at process start. -/
def amdUninit : AmdState :=
  ⟨false, false, false, false, false, false, false, 0, [], false, false, false, false⟩

/-- Per-call oracle for the AMD query functions: the agsGetGPUMemoryUsage
result per device index (none = non-AGS_SUCCESS), the
PdhCollectQueryData outcome, the formatted counter values when valid,
and the registry DriverDesc string when readable. -/
structure AmdEnv where
  agsUsage : Nat → Option AgsGpuUsage
  collectOk : Bool
  utilValue : Option Int
  memValue : Option Nat
  regName : Option String

/-- Embedding of get_gpu_utilization_perf_counter (lines 204-223):
-1 when the counters were never initialized or collection fails; the
formatted value truncated to int when the counter exists and reads
valid data; 0 otherwise. -/
def get_gpu_utilization_perf_counter (s : AmdState) (env : AmdEnv) : Int :=
  if !s.perfInitialized || !s.queryHandle then -1
  else if !env.collectOk then -1
  else if s.utilCounter then (env.utilValue).getD 0
  else 0

/-- Embedding of get_gpu_memory_perf_counter (lines 226-240): 0 when
uninitialized, the formatted large value when the memory counter
exists and reads valid data, 0 otherwise. -/
def get_gpu_memory_perf_counter (s : AmdState) (env : AmdEnv) : Nat :=
  if !s.perfInitialized || !s.queryHandle then 0
  else if s.memCounter then (env.memValue).getD 0
  else 0

/-- Embedding of the AMD get_gpu_utilization (lines 279-290).  The
Bool records whether the vendor (AGS) function pointer was invoked;
the AmdState result is the state of the globals afterwards (the body
assigns no global).  A failed per-call AGS fetch falls through to the
performance counters. -/
def get_gpu_utilization (s : AmdState) (env : AmdEnv) (i : Nat) :
    Int × Bool × AmdState :=
  if s.agsInitialized && s.agsGetUsagePtr then
    match env.agsUsage i with
    | some u => (u.gpuUsagePercentInt, true, s)
    | none => (get_gpu_utilization_perf_counter s env, true, s)
  else (get_gpu_utilization_perf_counter s env, false, s)

/-- Embedding of get_gpu_memory_usage (lines 293-304), Bool and state
as in get_gpu_utilization. -/
def get_gpu_memory_usage (s : AmdState) (env : AmdEnv) (i : Nat) :
    Nat × Bool × AmdState :=
  if s.agsInitialized && s.agsGetUsagePtr then
    match env.agsUsage i with
    | some u => (u.memoryUsedBytes, true, s)
    | none => (get_gpu_memory_perf_counter s env, true, s)
  else (get_gpu_memory_perf_counter s env, false, s)

/-- Embedding of the AMD gpu_get_count (lines 269-276): the cached AGS
device count when AGS is active, otherwise the hardcoded fallback 1
("assume 1 AMD GPU"); it never returns a negative sentinel. -/
def amd_gpu_get_count (s : AmdState) : Int :=
  if s.agsInitialized then (s.numDevices : Int) else 1

/-- One unified GPU record as serialized by the AMD gpu_get_info_json
(lines 368-377): gpuUtil after the gpu_util-nonnegative
clamp, memUtil the unsigned-64 quotient (used*100)/total narrowed by
the C (int) cast and printed with the d conversion, memory fields in
bytes. -/
structure AmdRecord where
  index : Nat
  name : String
  gpuUtil : Int
  memUtil : Int
  memTotal : Nat
  memUsed : Nat
  memFree : Nat
deriving Repr, DecidableEq

/-- Loop body of the AMD gpu_get_info_json (lines 322-380) for device
i: name and total memory from the cached AGS info when AGS is active
and i is in range, otherwise registry name (default "AMD Graphics
Card") and the hardcoded 8 GiB estimate; free memory guarded as
total > used ? total - used : 0; utilization clamped below at 0;
memory utilization the (int) cast of (used*100)/total computed in
unsigned long long arithmetic when total > 0, else 0. -/
def amdRecordOf (s : AmdState) (env : AmdEnv) (i : Nat) : AmdRecord :=
  let used := (get_gpu_memory_usage s env i).1
  let gpuUtilRaw := (get_gpu_utilization s env i).1
  let nameTotal : String × Nat :=
    if s.agsInitialized && decide (i < s.numDevices) then
      (((s.devices.get? i).map AgsDeviceInfo.adapterString).getD "",
       ((s.devices.get? i).map AgsDeviceInfo.localMemory).getD 0)
    else
      ((env.regName).getD "AMD Graphics Card", 8 * 1024 * 1024 * 1024)
  let total := nameTotal.2
  { index := i
    name := nameTotal.1
    gpuUtil := if gpuUtilRaw ≥ 0 then gpuUtilRaw else 0
    memUtil := if total > 0 then intCast32 ((used * 100 % u64Mod) / total) else 0
    memTotal := total
    memUsed := used
    memFree := if total > used then total - used else 0 }

/-- Embedding of the AMD gpu_get_info_json (lines 307-385): NULL when
the device count is not positive, otherwise one record per device
index from 0 to count-1 (no index is ever skipped).  Buffer
allocation is assumed to succeed. -/
def amd_gpu_get_info_json (s : AmdState) (env : AmdEnv) :
    Option (List AmdRecord) :=
  let n := amd_gpu_get_count s
  if n ≤ 0 then none
  else some ((List.range n.toNat).map (fun i => amdRecordOf s env i))

/-- Embedding of the AMD gpu_get_usage (lines 388-390). -/
def amd_gpu_get_usage (s : AmdState) (env : AmdEnv) : Int :=
  (get_gpu_utilization s env 0).1

/-- Observable release actions of the AMD gpu_shutdown: the
agsDeInitialize call, FreeLibrary(ags_lib) and PdhCloseQuery. -/
inductive AmdEffect where
  | deInit
  | freeLib
  | closeQuery
deriving Repr, DecidableEq

/-- Embedding of the AMD gpu_shutdown (lines 263-266) with unload_ags
(lines 181-192) and cleanup_performance_counters (lines 195-201)
inlined: each release action is guarded on its live handle, and every
handle global is nulled afterwards. -/
def amd_gpu_shutdown (s : AmdState) : AmdState × List AmdEffect :=
  let e1 := if s.agsInitialized && s.agsContext && s.agsDeInitPtr
    then [AmdEffect.deInit] else []
  let s1 := if s.agsInitialized && s.agsContext && s.agsDeInitPtr
    then { s with agsContext := false, agsInitialized := false } else s
  let e2 := if s1.agsLib then [AmdEffect.freeLib] else []
  let s2 := if s1.agsLib then { s1 with agsLib := false } else s1
  let e3 := if s2.queryHandle then [AmdEffect.closeQuery] else []
  let s3 := if s2.queryHandle then { s2 with queryHandle := false } else s2
  ({ s3 with perfInitialized := false }, e1 ++ e2 ++ e3)

/-- The AMD query operations whose bodies touch no global: the public
gpu_get_count, gpu_get_usage and gpu_get_info_json, and the internal
per-device helpers. -/
inductive AmdQuery where
  | qCount
  | qUsage
  | qInfoJson
  | qUtil (i : Nat)
  | qMem (i : Nat)
deriving Repr, DecidableEq

/-- Running one AMD query: the Bool records whether any AGS (vendor)
function pointer was invoked during the call, the AmdState is the
state of the globals afterwards. -/
def amdRunQuery (q : AmdQuery) (s : AmdState) (env : AmdEnv) :
    Bool × AmdState :=
  match q with
  | .qCount => (false, s)
  | .qUsage => ((get_gpu_utilization s env 0).2.1, s)
  | .qInfoJson =>
      (s.agsInitialized && s.agsGetUsagePtr && decide (0 < s.numDevices), s)
  | .qUtil i => ((get_gpu_utilization s env i).2.1, s)
  | .qMem i => ((get_gpu_memory_usage s env i).2.1, s)

/-- State of the AMD globals after a sequence of queries, each with
its own oracle. -/
def amdRunQueries (qs : List (AmdQuery × AmdEnv)) (s : AmdState) : AmdState :=
  qs.foldl (fun st qe => (amdRunQuery qe.1 st qe.2).2) s

/-- Backend kind the selector recorded in the AMD session state. -/
inductive BackendKind where
  | vendorActive
  | fallbackActive
  | failed
deriving Repr, DecidableEq

/-- The backend kind encoded by the AMD flag globals. -/
def amdBackendKind (s : AmdState) : BackendKind :=
  if s.agsInitialized then .vendorActive
  else if s.perfInitialized then .fallbackActive
  else .failed

/-! ## Intel backend (intel/gpu_usage.c)

Embedding of load_igcl, gpu_get_count, the internal helpers and
gpu_get_info_json.  Static helpers of the Intel file share names with
those of the AMD file, so they live in their own namespace. -/

namespace Intel

/-- Value written by a successful igcl_get_device_stats call
(igcl_device_stats_t), restricted to the integer fields the code
consumes; memoryUsed is a uint64_t. -/
structure IgclStats where
  gpuUtilization : Nat
  memoryUsed : Nat
deriving Repr, DecidableEq

/-- Value written by a successful igcl_get_device_info call
(igcl_device_info_t): device name and uint64_t total memory. -/
structure IgclInfo where
  deviceName : String
  totalMemory : Nat
deriving Repr, DecidableEq

/-- Static globals of the Intel file: the IGCL module handle, the five
IGCL function pointers, the init flag, and the performance-counter
query state. -/
structure IntelState where
  igclLib : Bool
  pInit : Bool
  pShutdown : Bool
  pCount : Bool
  pInfo : Bool
  pStats : Bool
  igclInitialized : Bool
  queryHandle : Bool
  utilCounter : Bool
  memCounter : Bool
  perfInitialized : Bool
deriving Repr, DecidableEq

/-- State of the Intel static globals at process start. -/
def intelUninit : IntelState :=
  ⟨false, false, false, false, false, false, false, false, false, false, false⟩

/-- Per-call oracle for the Intel query functions.  The three separate
igcl_get_device_stats calls gpu_get_info_json makes (one per helper)
each get their own result; likewise the two igcl_get_device_info
calls.  sysMemTotal is GlobalMemoryStatusEx.ullTotalPhys. -/
structure IntelEnv where
  countRes : Option Nat
  statsForUtil : Option IgclStats
  statsForMem : Option IgclStats
  infoForTotal : Option IgclInfo
  infoForName : Option IgclInfo
  sysMemTotal : Nat
  collectOk : Bool
  utilValue : Option Int
  memValue : Option Nat
  regName : Option String

/-- Embedding of the Intel get_gpu_utilization_perf_counter
(lines 184-203), identical in shape to the AMD one. -/
def get_gpu_utilization_perf_counter (s : IntelState) (env : IntelEnv) : Int :=
  if !s.perfInitialized || !s.queryHandle then -1
  else if !env.collectOk then -1
  else if s.utilCounter then (env.utilValue).getD 0
  else 0

/-- Embedding of the Intel get_gpu_memory_perf_counter (lines 206-220). -/
def get_gpu_memory_perf_counter (s : IntelState) (env : IntelEnv) : Nat :=
  if !s.perfInitialized || !s.queryHandle then 0
  else if s.memCounter then (env.memValue).getD 0
  else 0

/-- Embedding of the Intel gpu_get_count (lines 249-259): the IGCL
device count when active and the call succeeds, otherwise the
hardcoded fallback 1. -/
def gpu_get_count (s : IntelState) (env : IntelEnv) : Int :=
  if s.igclInitialized && s.pCount then
    match env.countRes with
    | some n => (n : Int)
    | none => 1
  else 1

/-- Embedding of the Intel get_gpu_utilization (lines 262-273); the
Bool records whether the IGCL stats pointer was invoked. -/
def get_gpu_utilization (s : IntelState) (env : IntelEnv) : Int × Bool :=
  if s.igclInitialized && s.pStats then
    match env.statsForUtil with
    | some st => ((st.gpuUtilization : Int), true)
    | none => (get_gpu_utilization_perf_counter s env, true)
  else (get_gpu_utilization_perf_counter s env, false)

/-- Embedding of the Intel get_gpu_memory_usage (lines 276-287). -/
def get_gpu_memory_usage (s : IntelState) (env : IntelEnv) : Nat × Bool :=
  if s.igclInitialized && s.pStats then
    match env.statsForMem with
    | some st => (st.memoryUsed, true)
    | none => (get_gpu_memory_perf_counter s env, true)
  else (get_gpu_memory_perf_counter s env, false)

/-- Embedding of get_gpu_total_memory (lines 290-304): IGCL-reported
capacity when available, otherwise the documented estimate of one
eighth of total system memory. -/
def get_gpu_total_memory (s : IntelState) (env : IntelEnv) : Nat :=
  if s.igclInitialized && s.pInfo then
    match env.infoForTotal with
    | some info => info.totalMemory
    | none => env.sysMemTotal / 8
  else env.sysMemTotal / 8

/-- One unified GPU record as serialized by the Intel
gpu_get_info_json (lines 356-375); field meanings as in AmdRecord. -/
structure IntelRecord where
  index : Nat
  name : String
  gpuUtil : Int
  memUtil : Int
  memTotal : Nat
  memUsed : Nat
  memFree : Nat
deriving Repr, DecidableEq

/-- Embedding of the Intel gpu_get_info_json (lines 307-378): a single
record for the implicit device 0.  memory_free is computed by the
UNGUARDED unsigned subtraction total_mem - memory_used (line 319),
which wraps modulo 2^64 when used exceeds total.  The name comes from
IGCL when active (default kept on a failed call), else from the
registry.  Buffer allocation is assumed to succeed. -/
def gpu_get_info_json (s : IntelState) (env : IntelEnv) :
    Option IntelRecord :=
  let gpuUtilRaw := (get_gpu_utilization s env).1
  let used := (get_gpu_memory_usage s env).1
  let total := get_gpu_total_memory s env
  let free := uSub64 total used
  let name :=
    if s.igclInitialized && s.pInfo then
      match env.infoForName with
      | some info => info.deviceName
      | none => "Intel Integrated Graphics"
    else (env.regName).getD "Intel Integrated Graphics"
  some
    { index := 0
      name := name
      gpuUtil := if gpuUtilRaw ≥ 0 then gpuUtilRaw else 0
      memUtil := if total > 0 then intCast32 ((used * 100 % u64Mod) / total) else 0
      memTotal := total
      memUsed := used
      memFree := free }

/-- Embedding of the Intel gpu_get_usage (lines 381-383). -/
def gpu_get_usage (s : IntelState) (env : IntelEnv) : Int :=
  (get_gpu_utilization s env).1

end Intel

/-! ## Helper lemmas and concrete fixtures -/

/-- Guarded truncating subtraction equals the integer max-with-zero. -/
lemma guardedSub_eq_max (a b : Nat) :
    ((if a > b then a - b else 0 : Nat) : Int) = max ((a : Int) - b) 0 := by
  rcases Nat.lt_or_ge b a with h | h
  · rw [if_pos h, max_eq_left (by omega)]
    omega
  · rw [if_neg (by omega), max_eq_right (by omega)]
    simp

/-- Wrapping 64-bit subtraction agrees with true subtraction when the
subtrahend does not exceed the minuend and the minuend is in range. -/
lemma uSub64_eq_sub (a b : Nat) (hb : b ≤ a) (ha : a < u64Mod) :
    uSub64 a b = a - b := by
  unfold uSub64 u64Mod at *
  omega

/-- NVIDIA pointer table with every symbol resolved. -/
def nvFullPtrs : NvPtrs :=
  ⟨true, true, true, true, true, true, true, true, true⟩

/-- NVIDIA session state after a fully successful probe and init. -/
def nvFull : NvState := ⟨true, nvFullPtrs⟩

/-- Intel session state with the IGCL backend active. -/
def intelActive : Intel.IntelState :=
  ⟨true, true, true, true, true, true, true, false, false, false, false⟩

/-- Intel oracle reporting 100 bytes of total memory but 105 bytes
used: a backend-reported sample with used > total. -/
def intelEnvOverused : Intel.IntelEnv :=
  { countRes := some 1
    statsForUtil := some ⟨50, 105⟩
    statsForMem := some ⟨50, 105⟩
    infoForTotal := some ⟨"Intel Arc", 100⟩
    infoForName := some ⟨"Intel Arc", 100⟩
    sysMemTotal := 0
    collectOk := true
    utilValue := none
    memValue := none
    regName := none }

/-- Intel oracle reporting 100 bytes of total memory, 60 used. -/
def intelEnvUnder : Intel.IntelEnv :=
  { intelEnvOverused with
    statsForUtil := some ⟨50, 60⟩
    statsForMem := some ⟨50, 60⟩ }

/-- Record the Intel backend serializes for intelEnvUnder. -/
def c1wRec : Intel.IntelRecord := ⟨0, "Intel Arc", 50, 60, 100, 60, 40⟩

/-! ## C1: memory_free = max(memory_total - memory_used, 0) -/

/-- C1: the claim fails on the code.  The Intel gpu_get_info_json
computes memory_free by the unguarded unsigned subtraction
total_mem - memory_used (line 319), so a backend-reported sample with
memory_used 105 > memory_total 100 yields memory_free = 2^64 - 5, a
wrapped-around huge value, where max(total - used, 0) = 0. -/
theorem C1_counterexample :
    ((Intel.gpu_get_info_json intelActive intelEnvOverused).map
        Intel.IntelRecord.memFree) = some (u64Mod - 5) ∧
    ((Intel.gpu_get_info_json intelActive intelEnvOverused).map
        Intel.IntelRecord.memTotal) = some 100 ∧
    ((Intel.gpu_get_info_json intelActive intelEnvOverused).map
        Intel.IntelRecord.memUsed) = some 105 ∧
    ((u64Mod - 5 : Int) ≠ max ((100 : Int) - 105) 0) := by
  refine ⟨by decide, by decide, by decide, by decide⟩

/-- C1 (amended): memory_free equals max(memory_total - memory_used, 0)
in every AMD record; an Intel record satisfies memory_free =
memory_total - memory_used whenever used ≤ total < 2^64 (the code
wraps modulo 2^64 otherwise); an NVIDIA record carries the
backend-reported free bytes through unchanged instead of deriving
them. -/
theorem C1_amended_thm :
    (∀ (s : AmdState) (env : AmdEnv) (i : Nat),
      ((amdRecordOf s env i).memFree : Int) =
        max (((amdRecordOf s env i).memTotal : Int) -
          ((amdRecordOf s env i).memUsed : Int)) 0)
    ∧ (∀ (s : Intel.IntelState) (env : Intel.IntelEnv) (r : Intel.IntelRecord),
        Intel.gpu_get_info_json s env = some r →
        r.memUsed ≤ r.memTotal → r.memTotal < u64Mod →
        r.memFree = r.memTotal - r.memUsed)
    ∧ (∀ (env : NvEnv) (i : Nat) (m : NvMemory),
        env.memRes i = some m → (nvRecordOf env i).memFree = m.free) := by
  refine ⟨?_, ?_, ?_⟩
  · intro s env i
    simp only [amdRecordOf]
    exact guardedSub_eq_max _ _
  · intro s env r h hle hlt
    simp only [Intel.gpu_get_info_json, Option.some.injEq] at h
    subst h
    simp only at hle hlt ⊢
    exact uSub64_eq_sub _ _ hle hlt
  · intro env i m h
    simp [nvRecordOf, h]

/-- C1 witness: the amended theorem applied to the Intel backend with a
concrete in-range sample (total 100, used 60, free 40). -/
theorem C1_witness :
    (Intel.gpu_get_info_json intelActive intelEnvUnder = some c1wRec)
    ∧ c1wRec.memFree = c1wRec.memTotal - c1wRec.memUsed :=
  ⟨by decide,
   C1_amended_thm.2.1 intelActive intelEnvUnder c1wRec (by decide)
     (by decide) (by decide)⟩

/-! ## C2: memory_utilization = floor(used*100/total), 0 on total = 0 -/

/-- AMD oracle on which every external call reports nothing. -/
def amdEnvNone : AmdEnv :=
  ⟨fun _ => none, true, none, none, none⟩

/-- NVIDIA oracle for one device whose NVML utilization-rates call
reports a memory rate of 7 while the memory-info call reports 1 of 4
bytes used. -/
def nvEnvC2 : NvEnv :=
  { countRes := some 1
    handleOk := fun _ => true
    nameRes := fun _ => none
    utilRes := fun _ => some ⟨30, 7⟩
    memRes := fun _ => some ⟨4, 3, 1⟩
    tempRes := fun _ => none
    powerRes := fun _ => none }

/-- Record the NVIDIA backend serializes for nvEnvC2. -/
def c2Rec : NvRecord := ⟨0, "Unknown GPU", 30, 7, 4, 1, 3, 0, 0⟩

/-- C2: the claim fails on the code.  The NVIDIA gpu_get_info_json
takes memory_utilization from the NVML utilization.memory rate
(line 206), not from used*100/total: with memory_total = 4 and
memory_used = 1 the record says 7, but floor(1*100/4) = 25. -/
theorem C2_counterexample :
    nv_gpu_get_info_json nvFull nvEnvC2 = .ok (some [c2Rec])
    ∧ c2Rec.memTotal ≠ 0
    ∧ c2Rec.memUtil ≠ c2Rec.memUsed * 100 / c2Rec.memTotal := by
  refine ⟨rfl, by decide, by decide⟩

/-- The C (int) cast is the identity on values below 2^31. -/
lemma intCast32_of_lt (x : Nat) (h : x < 2147483648) :
    intCast32 x = (x : Int) := by
  have hx : x % u32Mod = x := Nat.mod_eq_of_lt (by unfold u32Mod; omega)
  unfold intCast32
  rw [hx, if_pos h]

/-- C2 (amended): in the AMD and Intel backends memory_utilization is 0
when memory_total = 0 and otherwise the C (int) cast of
floor(used*100/total) computed in 64-bit unsigned arithmetic — equal
to floor(used*100/total) itself whenever used*100 does not wrap
64-bit arithmetic and the quotient fits a 32-bit int; the NVIDIA
backend instead reports the NVML memory-utilization rate (0 on a
failed query), which is not derived from used and total. -/
theorem C2_amended_thm :
    (∀ (s : AmdState) (env : AmdEnv) (i : Nat),
      ((amdRecordOf s env i).memTotal = 0 → (amdRecordOf s env i).memUtil = 0)
      ∧ ((amdRecordOf s env i).memUsed * 100 < u64Mod →
          (amdRecordOf s env i).memTotal ≠ 0 →
          (amdRecordOf s env i).memUsed * 100 /
              (amdRecordOf s env i).memTotal < 2147483648 →
          (amdRecordOf s env i).memUtil =
            ((amdRecordOf s env i).memUsed * 100 /
              (amdRecordOf s env i).memTotal : Nat)))
    ∧ (∀ (s : Intel.IntelState) (env : Intel.IntelEnv) (r : Intel.IntelRecord),
        Intel.gpu_get_info_json s env = some r →
        (r.memTotal = 0 → r.memUtil = 0)
        ∧ (r.memUsed * 100 < u64Mod → r.memTotal ≠ 0 →
            r.memUsed * 100 / r.memTotal < 2147483648 →
            r.memUtil = (r.memUsed * 100 / r.memTotal : Nat)))
    ∧ (∀ (env : NvEnv) (i : Nat) (u : NvUtilization),
        env.utilRes i = some u → (nvRecordOf env i).memUtil = u.memory) := by
  refine ⟨?_, ?_, ?_⟩
  · intro s env i
    constructor
    · intro h0
      simp only [amdRecordOf] at h0 ⊢
      rw [h0]
      simp
    · intro hlt hne hq
      simp only [amdRecordOf] at hlt hne hq ⊢
      rw [Nat.mod_eq_of_lt hlt, if_pos (Nat.pos_of_ne_zero hne)]
      exact intCast32_of_lt _ hq
  · intro s env r h
    simp only [Intel.gpu_get_info_json, Option.some.injEq] at h
    subst h
    constructor
    · intro h0
      simp only at h0 ⊢
      simp [h0]
    · intro hlt hne hq
      simp only at hlt hne hq ⊢
      rw [Nat.mod_eq_of_lt hlt, if_pos (Nat.pos_of_ne_zero hne)]
      exact intCast32_of_lt _ hq
  · intro env i u h
    simp [nvRecordOf, h]

/-- C2 witness: the amended theorem applied to the AMD backend in the
fallback state, where the record reports 0 bytes used of the 8 GiB
estimate, giving memory_utilization 0 = floor(0*100/total). -/
theorem C2_witness :
    ((amdRecordOf amdUninit amdEnvNone 0).memUsed * 100 < u64Mod)
    ∧ (amdRecordOf amdUninit amdEnvNone 0).memTotal ≠ 0
    ∧ (amdRecordOf amdUninit amdEnvNone 0).memUsed * 100 /
        (amdRecordOf amdUninit amdEnvNone 0).memTotal < 2147483648
    ∧ (amdRecordOf amdUninit amdEnvNone 0).memUtil =
        ((amdRecordOf amdUninit amdEnvNone 0).memUsed * 100 /
          (amdRecordOf amdUninit amdEnvNone 0).memTotal : Nat) :=
  ⟨by decide, by decide, by decide,
   (C2_amended_thm.1 amdUninit amdEnvNone 0).2 (by decide) (by decide)
     (by decide)⟩

/-! ## C7: gpu_utilization in range 0..100 -/

/-- NVIDIA oracle for one device whose utilization-rates call reports
a raw GPU percentage of 150. -/
def nvEnvC7 : NvEnv :=
  { nvEnvC2 with
    utilRes := fun _ => some ⟨150, 60⟩
    memRes := fun _ => some ⟨1000, 900, 100⟩ }

/-- Record the NVIDIA backend serializes for nvEnvC7. -/
def c7Rec : NvRecord := ⟨0, "Unknown GPU", 150, 60, 1000, 100, 900, 0, 0⟩

/-- C7: the claim fails on the code.  No backend clamps the raw
percentage from above: an NVML report of 150 is serialized as
gpu_utilization 150 > 100 by the NVIDIA gpu_get_info_json
(line 205 passes utilization.gpu through unchanged). -/
theorem C7_counterexample :
    nv_gpu_get_info_json nvFull nvEnvC7 = .ok (some [c7Rec])
    ∧ ¬ c7Rec.gpuUtil ≤ 100 := by
  refine ⟨rfl, by decide⟩

/-- C7 (amended): gpu_utilization is the raw backend percentage: the
NVIDIA backend serializes the unsigned NVML value unmodified, while
the AMD and Intel backends clamp negative values to 0 but impose no
upper bound, so only a lower bound of 0 holds there. -/
theorem C7_amended_thm :
    (∀ (s : AmdState) (env : AmdEnv) (i : Nat),
      0 ≤ (amdRecordOf s env i).gpuUtil)
    ∧ (∀ (s : Intel.IntelState) (env : Intel.IntelEnv) (r : Intel.IntelRecord),
        Intel.gpu_get_info_json s env = some r → 0 ≤ r.gpuUtil)
    ∧ (∀ (env : NvEnv) (i : Nat) (u : NvUtilization),
        env.utilRes i = some u → (nvRecordOf env i).gpuUtil = u.gpu) := by
  refine ⟨?_, ?_, ?_⟩
  · intro s env i
    simp only [amdRecordOf]
    split <;> omega
  · intro s env r h
    simp only [Intel.gpu_get_info_json, Option.some.injEq] at h
    subst h
    simp only
    split <;> omega
  · intro env i u h
    simp [nvRecordOf, h]

/-- C7 witness: the amended theorem applied to the Intel backend on a
concrete sample. -/
theorem C7_witness :
    (Intel.gpu_get_info_json intelActive intelEnvUnder = some c1wRec)
    ∧ 0 ≤ c1wRec.gpuUtil :=
  ⟨by decide, C7_amended_thm.2.1 intelActive intelEnvUnder c1wRec (by decide)⟩

/-! ## C3: record count of the gpus array -/

/-- Unpacking of the required-symbol check: each of the seven checked
pointers is resolved. -/
lemma nvRequired_fields (p : NvPtrs) (h : nvRequiredOk p = true) :
    p.pInit = true ∧ p.pShutdown = true ∧ p.pCount = true
    ∧ p.pHandle = true ∧ p.pName = true ∧ p.pUtil = true ∧ p.pMem = true := by
  simp only [nvRequiredOk, Bool.and_eq_true] at h
  tauto

/-- The device-loop body reduces to a pure step once the probe-required
pointers plus temperature and power are all resolved: a record for a
device whose handle fetch succeeds, nothing for one whose fetch fails. -/
lemma nvBuildRecord_of_ptrs (s : NvState) (env : NvEnv) (i : Nat)
    (hreq : nvRequiredOk s.ptrs = true) (ht : s.ptrs.pTemp = true)
    (hp : s.ptrs.pPower = true) :
    nvBuildRecord s env i =
      .ok (if env.handleOk i then some (nvRecordOf env i) else none) := by
  obtain ⟨h1, h2, h3, h4, h5, h6, h7⟩ := nvRequired_fields s.ptrs hreq
  simp only [nvBuildRecord, h4, h5, h6, h7, ht, hp, Bool.not_true,
    Bool.false_eq_true, if_false]
  cases henv : env.handleOk i <;> simp

/-- The device loop keeps exactly the records of the devices whose
handle fetch succeeds, in index order. -/
lemma nvLoop_of_ptrs (s : NvState) (env : NvEnv)
    (hreq : nvRequiredOk s.ptrs = true) (ht : s.ptrs.pTemp = true)
    (hp : s.ptrs.pPower = true) (l : List Nat) :
    ∀ acc : List NvRecord,
      nvLoop s env l acc =
        .ok (acc ++ (l.filter (fun i => env.handleOk i)).map (nvRecordOf env)) := by
  induction l with
  | nil => intro acc; simp [nvLoop]
  | cons i rest ih =>
      intro acc
      simp only [nvLoop]
      rw [nvBuildRecord_of_ptrs s env i hreq ht hp]
      cases henv : env.handleOk i
      · simp [henv, ih]
      · simp [henv, ih]

/-- Shape of the NVIDIA gpu_get_info_json result when all nine
pointers are resolved and the device-count query reports n devices. -/
lemma nv_info_json_of_ptrs (s : NvState) (env : NvEnv)
    (hreq : nvRequiredOk s.ptrs = true) (ht : s.ptrs.pTemp = true)
    (hp : s.ptrs.pPower = true) (n : Nat) (hc : env.countRes = some n) :
    nv_gpu_get_info_json s env =
      .ok (some (((List.range n).filter (fun i => env.handleOk i)).map
        (nvRecordOf env))) := by
  have hcount : s.ptrs.pCount = true := (nvRequired_fields s.ptrs hreq).2.2.1
  simp [nv_gpu_get_info_json, hcount, hc, nvLoop_of_ptrs s env hreq ht hp,
    Except.map]

/-- NVIDIA oracle whose only difference from nvEnvC2 is that the
handle fetch fails for every device. -/
def nvEnvC3 : NvEnv := { nvEnvC2 with handleOk := fun _ => false }

/-- C3: the claim fails on the code.  With a successfully selected
NVIDIA backend and a reported device count of 1, a failed
nvmlDeviceGetHandleByIndex call makes the loop skip the device via
continue (line 192), so the gpus array has 0 records, not 1 — the
transiently failing device is omitted instead of defaulted. -/
theorem C3_counterexample :
    nv_gpu_get_info_json nvFull nvEnvC3 = .ok (some [])
    ∧ nvEnvC3.countRes = some 1
    ∧ ([] : List NvRecord).length ≠ 1 := by
  refine ⟨rfl, rfl, by decide⟩

/-- C3 (amended): after a successful NVIDIA backend selection with
device count n the gpus array holds one record per device whose
handle fetch succeeds, in order — exactly n records only when every
handle fetch succeeds, while a device whose handle fetch fails is
omitted; a device whose handle fetch succeeds but whose stats
queries all fail still gets a record with defaulted zero fields.
The AMD backend emits exactly numDevices records when numDevices ≥ 1
and returns null when numDevices = 0. -/
theorem C3_amended_thm :
    (∀ (s : NvState) (env : NvEnv) (n : Nat),
        nvRequiredOk s.ptrs = true → s.ptrs.pTemp = true →
        s.ptrs.pPower = true → env.countRes = some n →
        nv_gpu_get_info_json s env =
          .ok (some (((List.range n).filter (fun i => env.handleOk i)).map
            (nvRecordOf env))))
    ∧ (∀ (env : NvEnv) (n : Nat),
        (∀ i, i < n → env.handleOk i = true) →
        (((List.range n).filter (fun i => env.handleOk i)).map
          (nvRecordOf env)).length = n)
    ∧ (∀ (env : NvEnv) (i : Nat),
        env.utilRes i = none → env.memRes i = none →
        env.tempRes i = none → env.powerRes i = none →
        nvRecordOf env i =
          ⟨i, (env.nameRes i).getD "Unknown GPU", 0, 0, 0, 0, 0, 0, 0⟩)
    ∧ (∀ (s : AmdState) (env : AmdEnv),
        s.agsInitialized = true →
        (amd_gpu_get_info_json s env).map List.length =
          if 0 < s.numDevices then some s.numDevices else none) := by
  refine ⟨?_, ?_, ?_, ?_⟩
  · intro s env n hreq ht hp hc
    exact nv_info_json_of_ptrs s env hreq ht hp n hc
  · intro env n hall
    rw [List.length_map, List.filter_eq_self.2]
    · exact List.length_range n
    · intro a ha
      exact hall a (List.mem_range.1 ha)
  · intro env i hu hm hte hpo
    simp [nvRecordOf, hu, hm, hte, hpo]
  · intro s env hags
    rcases Nat.eq_zero_or_pos s.numDevices with h0 | hpos
    · simp [amd_gpu_get_info_json, amd_gpu_get_count, hags, h0]
    · have hne : ¬ ((s.numDevices : Int) ≤ 0) := by
        omega
      simp [amd_gpu_get_info_json, amd_gpu_get_count, hags, hne, hpos]

/-- C3 witness: the amended theorem applied to a fully resolved NVIDIA
session with one device whose handle fetch succeeds. -/
theorem C3_witness :
    (nvRequiredOk nvFull.ptrs = true)
    ∧ nvFull.ptrs.pTemp = true
    ∧ nvFull.ptrs.pPower = true
    ∧ nvEnvC2.countRes = some 1
    ∧ nv_gpu_get_info_json nvFull nvEnvC2 =
        .ok (some (((List.range 1).filter (fun i => nvEnvC2.handleOk i)).map
          (nvRecordOf nvEnvC2))) :=
  ⟨by decide, by decide, by decide, rfl,
   C3_amended_thm.1 nvFull nvEnvC2 1 (by decide) (by decide) (by decide) rfl⟩

/-! ## C5: stats queries and the resolved symbol set -/

/-- Candidate nvml.dll exporting every symbol except
nvmlDeviceGetTemperature. -/
def c5Cand : NvCandidate :=
  ⟨true, ⟨true, true, true, true, true, true, true, true, true, true, false, true⟩⟩

/-- C5: evaluation of the code at the failing input.  A module that
exports all probe-required symbols but not nvmlDeviceGetTemperature
passes load_nvml (the temperature pointer is not in the required set,
lines 115-117), yet gpu_get_info_json then calls that NULL pointer
unconditionally (line 217), so the stats query is undefined. -/
theorem C5_theorem :
    load_nvml [c5Cand] = (.ok (resolveNv c5Cand.sym), true)
    ∧ nvRequiredOk (resolveNv c5Cand.sym) = true
    ∧ (resolveNv c5Cand.sym).pTemp = false
    ∧ nv_gpu_get_info_json ⟨true, resolveNv c5Cand.sym⟩ nvEnvC2 = .error () := by
  refine ⟨by decide, by decide, by decide, rfl⟩

/-! ## C6: probe chain behaviour on symbol-resolution failure -/

/-- Discriminator for a successful load_nvml return value. -/
def nvLoadOk : NvLoadResult → Bool
  | .ok _ => true
  | _ => false

/-- Candidate nvml.dll with the full export table. -/
def c6GoodCand : NvCandidate :=
  ⟨true, ⟨true, true, true, true, true, true, true, true, true, true, true, true⟩⟩

/-- Candidate nvml.dll that loads but lacks nvmlDeviceGetMemoryInfo,
a required symbol. -/
def c6BadCand : NvCandidate :=
  ⟨true, ⟨true, true, true, true, true, true, true, true, true, false, true, true⟩⟩

/-- C6: the claim fails on the code.  When the first candidate path
loads but misses a required symbol, load_nvml frees it and returns -2
immediately (lines 115-121): the probe does NOT move on to the next
candidate, even though that candidate alone would have succeeded. -/
theorem C6_counterexample :
    load_nvml [c6BadCand, c6GoodCand] = (.symbolMissing, false)
    ∧ load_nvml [c6GoodCand] = (.ok (resolveNv c6GoodCand.sym), true) := by
  refine ⟨by decide, by decide⟩

/-- C6 (amended): the probe is all-or-nothing per candidate — on a
symbol-resolution failure the candidate is unloaded and no library
handle is kept — but the chain advances only past candidates that
fail to load: the first candidate that loads decides the whole probe,
and a symbol-resolution failure there aborts it. -/
theorem C6_amended_thm :
    (∀ (c : NvCandidate) (rest : List NvCandidate), c.loads = true →
        load_nvml (c :: rest) =
          if nvRequiredOk (resolveNv c.sym)
          then (.ok (resolveNv c.sym), true)
          else (.symbolMissing, false))
    ∧ (∀ (c : NvCandidate) (rest : List NvCandidate), c.loads = false →
        load_nvml (c :: rest) = load_nvml rest)
    ∧ (∀ cands : List NvCandidate,
        (load_nvml cands).2 = nvLoadOk (load_nvml cands).1) := by
  refine ⟨?_, ?_, ?_⟩
  · intro c rest h
    simp [load_nvml, List.find?_cons, h]
  · intro c rest h
    simp [load_nvml, List.find?_cons, h]
  · intro cands
    unfold load_nvml
    cases hfind : cands.find? (fun c => c.loads) with
    | none => simp [nvLoadOk]
    | some c =>
        by_cases hreq : nvRequiredOk (resolveNv c.sym)
        · simp [hreq, nvLoadOk]
        · simp [hreq, nvLoadOk]

/-- C6 witness: the amended theorem applied to the two-candidate chain
whose first candidate loads with an incomplete symbol table. -/
theorem C6_witness :
    (c6BadCand.loads = true)
    ∧ load_nvml [c6BadCand, c6GoodCand] =
        (if nvRequiredOk (resolveNv c6BadCand.sym)
         then (.ok (resolveNv c6BadCand.sym), true)
         else (.symbolMissing, false)) :=
  ⟨by decide, C6_amended_thm.1 c6BadCand [c6GoodCand] (by decide)⟩

/-! ## C4: behaviour when both probes failed -/

/-- Record the AMD backend serializes in the both-probes-failed state
with an unreadable registry: a fabricated default device. -/
def c4Rec : AmdRecord :=
  ⟨0, "AMD Graphics Card", 0, 0, 8589934592, 0, 8589934592⟩

/-- C4: the claim fails on the code.  In the state where neither AGS
nor the performance counters initialized, the AMD gpu_get_count
returns the hardcoded 1 (line 275), not an unknown sentinel (the
header documents -1 as the error value), and gpu_get_info_json
fabricates a one-record document with an 8 GiB estimate (lines
345-358) instead of returning null/empty; only gpu_get_usage returns
-1 as claimed. -/
theorem C4_counterexample :
    amd_gpu_get_count amdUninit = 1
    ∧ (1 : Int) ≠ -1
    ∧ amd_gpu_get_info_json amdUninit amdEnvNone = some [c4Rec]
    ∧ amd_gpu_get_info_json amdUninit amdEnvNone ≠ none
    ∧ amd_gpu_get_usage amdUninit amdEnvNone = -1 := by
  refine ⟨by decide, by decide, by decide, by decide, by decide⟩

/-- C4 (amended): when both the vendor probe and the counter probe
failed, gpu_get_usage returns -1, but gpu_get_count returns the
hardcoded fallback 1 rather than an unknown sentinel, and
gpu_get_info_json returns a populated one-record document with
defaulted fields (registry or default name, 8 GiB estimated total for
AMD, one eighth of system memory for Intel, 0 used, 0 utilization)
rather than null/empty.  (The NVIDIA query functions are undefined in
this state; see C10.) -/
theorem C4_amended_thm :
    (∀ env : AmdEnv,
        amd_gpu_get_usage amdUninit env = -1
        ∧ amd_gpu_get_count amdUninit = 1
        ∧ amd_gpu_get_info_json amdUninit env =
            some [⟨0, env.regName.getD "AMD Graphics Card", 0, 0,
              8589934592, 0, 8589934592⟩])
    ∧ (∀ env : Intel.IntelEnv,
        Intel.gpu_get_usage Intel.intelUninit env = -1
        ∧ Intel.gpu_get_count Intel.intelUninit env = 1
        ∧ (Intel.gpu_get_info_json Intel.intelUninit env).isSome = true) := by
  constructor
  · intro env
    refine ⟨rfl, rfl, ?_⟩
    simp [amd_gpu_get_info_json, amd_gpu_get_count, amdUninit, amdRecordOf,
      get_gpu_memory_usage, get_gpu_memory_perf_counter,
      get_gpu_utilization, get_gpu_utilization_perf_counter, u64Mod,
      intCast32, u32Mod, List.range_succ]
  · intro env
    exact ⟨rfl, rfl, rfl⟩

/-! ## C8: monotonic backend selection -/

/-- State-preservation of every AMD query: the query bodies assign no
global. -/
lemma amdRunQuery_state (q : AmdQuery) (s : AmdState) (env : AmdEnv) :
    (amdRunQuery q s env).2 = s := by
  cases q <;> rfl

/-- AMD session state in which the performance-counter fallback is the
active backend. -/
def amdFallback : AmdState :=
  { amdUninit with queryHandle := true, utilCounter := true, perfInitialized := true }

/-- C8: once the AMD session is in the fallback state, every query
leaves the session state unchanged (so the selected backend kind is
fixed until gpu_shutdown) and never invokes an AGS function pointer;
arbitrary query sequences preserve the state; likewise the Intel
per-call helpers never touch IGCL once igcl_initialized is false. -/
theorem C8_theorem :
    (∀ (q : AmdQuery) (s : AmdState) (env : AmdEnv),
        (amdRunQuery q s env).2 = s
        ∧ (amdBackendKind s = .fallbackActive →
            (amdRunQuery q s env).1 = false))
    ∧ (∀ (qs : List (AmdQuery × AmdEnv)) (s : AmdState),
        amdRunQueries qs s = s)
    ∧ (∀ (s : Intel.IntelState) (env : Intel.IntelEnv),
        s.igclInitialized = false →
        (Intel.get_gpu_utilization s env).2 = false
        ∧ (Intel.get_gpu_memory_usage s env).2 = false) := by
  refine ⟨?_, ?_, ?_⟩
  · intro q s env
    refine ⟨amdRunQuery_state q s env, ?_⟩
    intro hkind
    have hags : s.agsInitialized = false := by
      by_contra hc
      rw [Bool.not_eq_false] at hc
      simp [amdBackendKind, hc] at hkind
    cases q <;>
      simp [amdRunQuery, get_gpu_utilization, get_gpu_memory_usage, hags]
  · intro qs
    induction qs with
    | nil => intro s; rfl
    | cons qe rest ih =>
        intro s
        have hstep := amdRunQuery_state qe.1 s qe.2
        simp [amdRunQueries, List.foldl] at ih ⊢
        rw [hstep]
        exact ih s
  · intro s env h
    constructor
    · simp [Intel.get_gpu_utilization, h]
    · simp [Intel.get_gpu_memory_usage, h]

/-- C8 witness: the theorem applied to the concrete fallback-active
AMD state and the uninitialized Intel state. -/
theorem C8_witness :
    (amdBackendKind amdFallback = .fallbackActive)
    ∧ (amdRunQuery .qUsage amdFallback amdEnvNone).1 = false
    ∧ (Intel.intelUninit.igclInitialized = false)
    ∧ (Intel.get_gpu_utilization Intel.intelUninit intelEnvUnder).2 = false :=
  ⟨by decide,
   (C8_theorem.1 .qUsage amdFallback amdEnvNone).2 (by decide),
   by decide,
   (C8_theorem.2.2 Intel.intelUninit intelEnvUnder (by decide)).1⟩

/-! ## C9: shutdown idempotence and unconditional safety -/

/-- Shutdown on a state whose library handle is already released
performs nothing. -/
lemma nv_shutdown_of_unlib (s : NvState) (h : s.lib = false) :
    nv_gpu_shutdown s = (s, []) := by
  simp [nv_gpu_shutdown, h]

/-- Shutdown always leaves the library handle released. -/
lemma nv_shutdown_lib_false (s : NvState) :
    (nv_gpu_shutdown s).1.lib = false := by
  rcases s with ⟨lib, ptrs⟩
  cases lib <;> simp [nv_gpu_shutdown]

/-- Every failing gpu_init leaves the library handle released. -/
lemma nv_init_fail_lib_false (s : NvState) (cands : List NvCandidate)
    (ok : Bool) (h : (nv_gpu_init s cands ok).2 ≠ 0) :
    (nv_gpu_init s cands ok).1.lib = false := by
  unfold nv_gpu_init at h ⊢
  cases hfind : cands.find? (fun c => c.loads) with
  | none => simp
  | some c =>
      simp only [hfind] at h ⊢
      by_cases hreq : nvRequiredOk (resolveNv c.sym)
      · cases ok
        · simp [hreq]
        · simp [hreq] at h
      · simp [hreq]

/-- C9: a second gpu_shutdown right after a first one changes no state
and performs no release action (no double free of the library handle
or counter query); shutdown always leaves the handles released; a
shutdown after a gpu_init that never succeeded performs no action at
all; and the AMD shutdown releases the AGS library, the counter query
and the initialized flags. -/
theorem C9_theorem :
    (∀ s : NvState,
        nv_gpu_shutdown (nv_gpu_shutdown s).1 = ((nv_gpu_shutdown s).1, []))
    ∧ (∀ s : NvState, (nv_gpu_shutdown s).1.lib = false)
    ∧ (∀ (s : NvState) (cands : List NvCandidate) (ok : Bool),
        (nv_gpu_init s cands ok).2 ≠ 0 →
        nv_gpu_shutdown (nv_gpu_init s cands ok).1 =
          ((nv_gpu_init s cands ok).1, []))
    ∧ (∀ s : AmdState,
        amd_gpu_shutdown (amd_gpu_shutdown s).1 = ((amd_gpu_shutdown s).1, []))
    ∧ (∀ s : AmdState,
        (amd_gpu_shutdown s).1.agsLib = false
        ∧ (amd_gpu_shutdown s).1.queryHandle = false
        ∧ (amd_gpu_shutdown s).1.perfInitialized = false) := by
  refine ⟨?_, nv_shutdown_lib_false, ?_, ?_, ?_⟩
  · intro s
    exact nv_shutdown_of_unlib _ (nv_shutdown_lib_false s)
  · intro s cands ok h
    exact nv_shutdown_of_unlib _ (nv_init_fail_lib_false s cands ok h)
  · intro s
    rcases s with ⟨a1, a2, a3, a4, a5, a6, a7, nd, dv, a10, a11, a12, a13⟩
    cases a1 <;> cases a3 <;> cases a6 <;> cases a7 <;> cases a10 <;> rfl
  · intro s
    rcases s with ⟨a1, a2, a3, a4, a5, a6, a7, nd, dv, a10, a11, a12, a13⟩
    cases a1 <;> cases a3 <;> cases a6 <;> cases a7 <;> cases a10 <;>
      exact ⟨rfl, rfl, rfl⟩

/-- C9 witness: the theorem applied to a gpu_init that found no
library at all (empty candidate list). -/
theorem C9_witness :
    ((nv_gpu_init nvFull [] true).2 ≠ 0)
    ∧ nv_gpu_shutdown (nv_gpu_init nvFull [] true).1 =
        ((nv_gpu_init nvFull [] true).1, []) :=
  ⟨by decide, C9_theorem.2.2.1 nvFull [] true (by decide)⟩

/-! ## C10: NVIDIA queries are undefined before a successful init -/

/-- Discriminator for a defined (non-crashing) modelled execution. -/
def exceptDefined {α : Type} : Except Unit α → Bool
  | .ok _ => true
  | .error _ => false

/-- C10: in the uninitialized state every NVIDIA query function calls
through a NULL NVML function pointer (undefined execution), so they
are well-defined only after a successful gpu_init, which indeed makes
gpu_get_count and gpu_get_usage defined; the AMD and Intel
performance-counter query paths instead guard on their initialized
flags and return the -1 sentinel without faulting. -/
theorem C10_theorem :
    (∀ env : NvEnv,
        nv_gpu_get_count nvUninit env = .error ()
        ∧ nv_gpu_get_info_json nvUninit env = .error ()
        ∧ nv_gpu_get_usage nvUninit env = .error ())
    ∧ (∀ (s : NvState) (cands : List NvCandidate) (ok : Bool) (env : NvEnv),
        (nv_gpu_init s cands ok).2 = 0 →
        exceptDefined (nv_gpu_get_count (nv_gpu_init s cands ok).1 env) = true
        ∧ exceptDefined (nv_gpu_get_usage (nv_gpu_init s cands ok).1 env) = true)
    ∧ (∀ env : AmdEnv, get_gpu_utilization_perf_counter amdUninit env = -1)
    ∧ (∀ env : Intel.IntelEnv,
        Intel.get_gpu_utilization_perf_counter Intel.intelUninit env = -1
        ∧ Intel.gpu_get_usage Intel.intelUninit env = -1) := by
  refine ⟨fun env => ⟨rfl, rfl, rfl⟩, ?_, fun env => rfl, fun env => ⟨rfl, rfl⟩⟩
  intro s cands ok env h
  unfold nv_gpu_init at h ⊢
  cases hfind : cands.find? (fun c => c.loads) with
  | none => simp [hfind] at h
  | some c =>
      simp only [hfind] at h ⊢
      by_cases hreq : nvRequiredOk (resolveNv c.sym)
      · cases ok
        · simp [hreq] at h
        · simp only [hreq, if_true]
          obtain ⟨h1, h2, h3, h4, h5, h6, h7⟩ :=
            nvRequired_fields (resolveNv c.sym) hreq
          constructor
          · simp only [nv_gpu_get_count, h3]
            cases env.countRes <;> simp [exceptDefined]
          · simp only [nv_gpu_get_usage, h4, h6]
            cases henv : env.handleOk 0
            · simp [exceptDefined]
            · cases env.utilRes 0 <;> simp [exceptDefined]
      · simp [hreq] at h

/-- C10 witness: the theorem applied to a successful init over the
full-export candidate. -/
theorem C10_witness :
    ((nv_gpu_init nvUninit [c6GoodCand] true).2 = 0)
    ∧ exceptDefined
        (nv_gpu_get_count (nv_gpu_init nvUninit [c6GoodCand] true).1 nvEnvC2)
        = true :=
  ⟨by decide,
   (C10_theorem.2.1 nvUninit [c6GoodCand] true nvEnvC2 (by decide)).1⟩

end Statz
